import Mathlib

/-!
Shallow embedding of the themis bridge command bootstrap
(bridge/cmd/root.go): flag resolution into the process-wide viper
configuration store, derived storage paths, the command lifecycle hooks,
and the metrics server supervision.
-/

/-- Errors returned by Go functions in the embedded fragment.
`errServerClosed` is http.ErrServerClosed, the clean "already shutting
down" signal that net/http ListenAndServe returns after Shutdown. -/
inductive GoError where
  | errServerClosed
  | other (msg : String)
deriving DecidableEq, Repr

/-- Helper splitting a character list at every slash, accumulating the
current component in reverse; yields the components in order. -/
def splitSlashAux : List Char → List Char → List String
  | [], cur => [String.mk cur.reverse]
  | c :: cs, cur =>
    if c = '/' then String.mk cur.reverse :: splitSlashAux cs []
    else splitSlashAux cs (c :: cur)

/-- Split a string on the slash separator (the behavior of strings.Split
with separator slash). -/
def splitSlash (s : String) : List String :=
  splitSlashAux s.data []

/-- Join strings with the slash separator (the behavior of strings.Join
with separator slash). -/
def joinSlash : List String → String
  | [] => ""
  | [p] => p
  | p :: ps => p ++ "/" ++ joinSlash ps

/-- True when the path starts with the slash separator. -/
def isRooted (s : String) : Bool :=
  match s.data with
  | c :: _ => c = '/'
  | [] => false

/-- One fold step of Go's lexical path cleaning: push a path component onto
the output stack, eliding "." and empty components and resolving ".."
lexically (at the root ".." is dropped; in a relative path it may
accumulate at the front). -/
def cleanPush (rooted : Bool) (acc : List String) (c : String) : List String :=
  if c = "" ∨ c = "." then acc
  else if c = ".." then
    match acc with
    | [] => if rooted then [] else [".."]
    | a :: rest => if a = ".." then ".." :: a :: rest else rest
  else c :: acc

/-- Lexical path cleaning, Go's path/filepath Clean restricted to the slash
separator: collapses repeated separators, elides "." components and
resolves ".." components without consulting the filesystem; the empty path
cleans to ".". -/
def Clean (path : String) : String :=
  if path = "" then "."
  else
    let rooted := isRooted path
    let comps := ((splitSlash path).foldl (cleanPush rooted) []).reverse
    if comps = [] then (if rooted then "/" else ".")
    else (if rooted then "/" else "") ++ joinSlash comps

/-- Go's path/filepath Join for slash-separated paths: drops leading empty
elements, joins the remaining elements with the separator and cleans the
result; Join of all-empty elements is the empty string. -/
def filepathJoin : List String → String
  | [] => ""
  | e :: es => if e = "" then filepathJoin es else Clean (joinSlash (e :: es))

/-- Flag key literal bridgeDBFlag from root.go. -/
def bridgeDBFlag : String := "bridge-db"

/-- Flag key literal bridgeSqliteDBFlag from root.go. -/
def bridgeSqliteDBFlag : String := "bridge-sqlite-db"

/-- Flag key literal metricsServerFlag from root.go. -/
def metricsServerFlag : String := "metrics-server-addr"

/-- Flag key literal rpcServerFlag from root.go. -/
def rpcServerFlag : String := "rpc-server-addr"

/-- Flag key literal metisChainIDFlag from root.go. -/
def metisChainIDFlag : String := "metis-chain-id"

/-- Flag key literal logsTypeFlag from root.go. -/
def logsTypeFlag : String := "logs-type"

/-- Modelled from the spec: the flag key of the node-endpoint option,
helper.TendermintNodeFlag (the helper package is not under src/). -/
def TendermintNodeFlag : String := "node"

/-- Modelled from the spec: the flag key of the home-directory option,
helper.HomeFlag (the helper package is not under src/). -/
def HomeFlag : String := "home"

/-- Modelled from the spec material: the flag key
helper.WithThemisConfigFlag (the helper package is not under src/), read
and stored by AdjustBridgeDBValue. -/
def WithThemisConfigFlag : String := "with-themis-config"

/-- Modelled from the spec: the identity (Use string) of the sentinel
introspection command, version.Cmd.Use (the version package is not under
src/). -/
def versionCmdUse : String := "version"

/-- Current values of the persistent flags read by AdjustBridgeDBValue and
initMetrics. The CLI flag framework (cobra/viper binding, three-tier
precedence) is an external collaborator; a Flags value holds the result of
cmd.Flags().GetString for each key, a missing flag reading as the empty
string. -/
structure Flags where
  tendermintNode : String
  home : String
  withThemisConfig : String
  bridgeDB : String
  bridgeSqliteDB : String
  metisChainID : String
  logsType : String
  metricsServerAddr : String
  rpcServerAddr : String
deriving DecidableEq, Repr

/-- Process-wide viper configuration store: a mapping from configuration
key to resolved string value. -/
def ConfigStore : Type := String → Option String

/-- Store with no entries. -/
def emptyStore : ConfigStore := fun _ => none

/-- viper.Set: bind key k to value v, overwriting any earlier binding of k. -/
def viperSet (s : ConfigStore) (k v : String) : ConfigStore :=
  fun q => if q = k then some v else s q

/-- AdjustBridgeDBValue from root.go: reads the seven flag values, derives
the two bridge database paths from the home value when their override is
empty, and writes each resulting key/value pair to the viper store. -/
def AdjustBridgeDBValue (f : Flags) (s : ConfigStore) : ConfigStore :=
  let bridgeDBValue := if f.bridgeDB = "" then filepathJoin [f.home, "bridge", "storage"] else f.bridgeDB
  let bridgeSqliteDBValue := if f.bridgeSqliteDB = "" then filepathJoin [f.home, "bridge", "sqlite"] else f.bridgeSqliteDB
  viperSet (viperSet (viperSet (viperSet (viperSet (viperSet (viperSet s
    TendermintNodeFlag f.tendermintNode)
    HomeFlag f.home)
    WithThemisConfigFlag f.withThemisConfig)
    bridgeDBFlag bridgeDBValue)
    bridgeSqliteDBFlag bridgeSqliteDBValue)
    metisChainIDFlag f.metisChainID)
    logsTypeFlag f.logsType

/-- Pointwise evaluation of AdjustBridgeDBValue: the last write of a key
wins and keys it never writes fall through to the previous store. -/
theorem adjust_apply (f : Flags) (s : ConfigStore) (k : String) :
    AdjustBridgeDBValue f s k =
      if k = logsTypeFlag then some f.logsType
      else if k = metisChainIDFlag then some f.metisChainID
      else if k = bridgeSqliteDBFlag then
        some (if f.bridgeSqliteDB = "" then filepathJoin [f.home, "bridge", "sqlite"] else f.bridgeSqliteDB)
      else if k = bridgeDBFlag then
        some (if f.bridgeDB = "" then filepathJoin [f.home, "bridge", "storage"] else f.bridgeDB)
      else if k = WithThemisConfigFlag then some f.withThemisConfig
      else if k = HomeFlag then some f.home
      else if k = TendermintNodeFlag then some f.tendermintNode
      else s k := rfl

/-- Lifecycle states of the metrics HTTP server, after the spec's state
machine with the transient Starting and ShuttingDown states collapsed into
their successors: start is fire-and-forget and shutdown is modelled
atomically. -/
inductive ServerState where
  | idle
  | running
  | stopped
deriving DecidableEq, Repr

/-- The package-level metricsServer http.Server value together with its
lifecycle state; the zero value (never started) is idle with an empty
address. -/
structure MetricsServer where
  addr : String
  state : ServerState
deriving DecidableEq, Repr

/-- Zero value of the package-level metricsServer variable. -/
def initialMetricsServer : MetricsServer :=
  { addr := "", state := ServerState.idle }

/-- Modelled from the spec: net/http Server.Shutdown (standard library, not
under src/). Graceful connection draining bounded by the timeout; drain is
the environment-dependent outcome of that draining (an error when
connections failed to drain in time). Shutdown of a never-started (idle)
server and of an already stopped server is a no-op returning success. -/
def MetricsServer.shutdown (srv : MetricsServer) (timeout : Nat) (drain : Option GoError) :
    MetricsServer × Option GoError :=
  match timeout, srv.state with
  | _, ServerState.idle => (srv, none)
  | _, ServerState.stopped => (srv, none)
  | _, ServerState.running => ({ srv with state := ServerState.stopped }, drain)

/-- Combined bootstrap state: the viper store and the metrics server. -/
structure BridgeState where
  store : ConfigStore
  server : MetricsServer

/-- Outcome of the metrics listen goroutine's error handling: either the
process keeps running or it terminates with the given exit code. -/
inductive ProcessOutcome where
  | continues
  | exits (code : Nat)
deriving DecidableEq, Repr

/-- Error handling of the listen goroutine spawned by initMetrics: when
ListenAndServe returns a non-nil error the code logs it and calls
os.Exit(1). There is no exclusion for http.ErrServerClosed in the source. -/
def metricsGoroutineHandler : Option GoError → ProcessOutcome
  | none => ProcessOutcome.continues
  | some _ => ProcessOutcome.exits 1

/-- initMetrics from root.go: builds the http.Server from the
metrics-server-addr flag value (the read/write timeouts come from the
external tendermint rpcserver default config and are not modelled),
registers the /metrics route on the default mux and launches the listen
loop on its own goroutine; the loop's error handling is
metricsGoroutineHandler. -/
def initMetrics (f : Flags) (s : BridgeState) : BridgeState :=
  { s with server := { addr := f.metricsServerAddr, state := ServerState.running } }

/-- initTendermintViperConfig from root.go: sets the bridge DB values via
AdjustBridgeDBValue on the global viper store, then calls
helper.InitThemisConfig (helper package not under src/; modelled from the
spec as loading the persisted node configuration file from the home
directory, with environment-dependent outcome loadResult). The call is a
bare statement and this function has no error return, so loadResult cannot
reach the caller. -/
def initTendermintViperConfig (f : Flags) (loadResult : Except GoError Unit) (s : BridgeState) :
    BridgeState :=
  let _ := loadResult
  { s with store := AdjustBridgeDBValue f s.store }

/-- PersistentPreRun of rootCmd: when the invoked command is not the
version command, initialize the tendermint viper config and then the
metrics server; for the version command do nothing. -/
def PersistentPreRun (cmdUse : String) (f : Flags) (loadResult : Except GoError Unit)
    (s : BridgeState) : BridgeState :=
  if cmdUse ≠ versionCmdUse then initMetrics f (initTendermintViperConfig f loadResult s)
  else s

/-- Shutdown timeout used by PostRunE, in seconds:
context.WithTimeout(context.Background(), time.Second*10). -/
def shutdownTimeout : Nat := 10

/-- PostRunE of rootCmd: shuts the metrics server down with the 10 second
timeout and returns the shutdown error as the command's result. -/
def PostRunE (drain : Option GoError) (s : BridgeState) : BridgeState × Option GoError :=
  let r := s.server.shutdown shutdownTimeout drain
  ({ s with server := r.1 }, r.2)

/-- Observable lifecycle events of one command execution. -/
inductive Event where
  | preRunInvoked
  | bodyReturned (ok : Bool)
  | shutdownCalled (timeout : Nat)
deriving DecidableEq, Repr

/-- Modelled from the spec: the command dispatch of the external CLI
framework (cobra, not under src/) runs the pre-run hook, then the
subcommand body, then the post-run hook exactly once, whether the body
succeeded or failed; a shutdown failure from the post-run hook overrides a
prior body success as the command's reported result. The body is external:
bodyF is its effect on the bootstrap state and bodyErr its own result.
Returns the final state, the command's reported result and the event
trace. -/
def execute (cmdUse : String) (f : Flags) (loadResult : Except GoError Unit)
    (bodyF : BridgeState → BridgeState) (bodyErr : Option GoError)
    (drain : Option GoError) (s : BridgeState) :
    BridgeState × Option GoError × List Event :=
  let s1 := PersistentPreRun cmdUse f loadResult s
  let s2 := bodyF s1
  let r := PostRunE drain s2
  (r.1, (if r.2.isSome then r.2 else bodyErr),
    [Event.preRunInvoked, Event.bodyReturned bodyErr.isNone, Event.shutdownCalled shutdownTimeout])

/-- Concrete flag fixture with empty path overrides, used by the closed
witness and counterexample statements. -/
def sampleFlags : Flags :=
  { tendermintNode := "tcp://localhost:26657"
    home := "/data"
    withThemisConfig := ""
    bridgeDB := ""
    bridgeSqliteDB := ""
    metisChainID := "1088"
    logsType := "json"
    metricsServerAddr := ":2112"
    rpcServerAddr := ":8646" }

/-- Concrete flag fixture with explicit path overrides, used by the closed
witness statements. -/
def overrideFlags : Flags :=
  { sampleFlags with bridgeDB := "/custom/db", bridgeSqliteDB := "/custom/sqlite" }

/-- Fresh bootstrap state: empty store, metrics server never started. -/
def sampleState : BridgeState :=
  { store := emptyStore, server := initialMetricsServer }

/-- Auxiliary fact about options: keeping an option when it is some and
replacing it by none otherwise is the identity. -/
theorem ite_isSome_self (o : Option GoError) : (if o.isSome then o else none) = o := by
  cases o <;> rfl

/-- Claim C1: after the pre-run hook and the subcommand body, the post-run
hook runs exactly once, whether the body succeeded or failed; it calls the
metrics server's shutdown with the 10 second timeout, and when the body
succeeded the shutdown error (if any) is returned as the command's own
result. The dispatch around the hooks is modelled from the spec (cobra is
an external framework); the hook bodies are embedded from root.go. -/
theorem c1_postrun_shutdown_once (cmdUse : String) (f : Flags)
    (loadResult : Except GoError Unit) (bodyF : BridgeState → BridgeState)
    (bodyErr : Option GoError) (drain : Option GoError) (s : BridgeState) :
    (execute cmdUse f loadResult bodyF bodyErr drain s).2.2 =
      [Event.preRunInvoked, Event.bodyReturned bodyErr.isNone,
        Event.shutdownCalled shutdownTimeout] ∧
    shutdownTimeout = 10 ∧
    (bodyErr = none →
      (execute cmdUse f loadResult bodyF bodyErr drain s).2.1 =
        ((bodyF (PersistentPreRun cmdUse f loadResult s)).server.shutdown
          shutdownTimeout drain).2) := by
  refine ⟨rfl, rfl, ?_⟩
  intro hok
  subst hok
  exact ite_isSome_self
    (((bodyF (PersistentPreRun cmdUse f loadResult s)).server.shutdown shutdownTimeout drain).2)

/-- Claim C1 witness: a concrete run whose body succeeds while the graceful
drain fails; the drain failure is the command's reported result. -/
theorem c1_postrun_shutdown_once_witness :
    (execute "start" sampleFlags (Except.ok ()) id none
        (some (GoError.other "drain failed")) sampleState).2.1 =
      some (GoError.other "drain failed") := by
  have h := c1_postrun_shutdown_once "start" sampleFlags (Except.ok ()) id none
    (some (GoError.other "drain failed")) sampleState
  exact (h.2.2 rfl).trans rfl

/-- Claim C2: the listen goroutine of initMetrics calls os.Exit(1) on every
non-nil error from ListenAndServe, with no exclusion for
http.ErrServerClosed; so the clean "already shutting down" signal is also
treated as fatal, contradicting the claim (evidence for the code bug). -/
theorem c2_server_closed_still_exits :
    metricsGoroutineHandler (some GoError.errServerClosed) = ProcessOutcome.exits 1 ∧
    metricsGoroutineHandler (some (GoError.other "bind: address already in use")) =
      ProcessOutcome.exits 1 := ⟨rfl, rfl⟩

/-- Claim C3 counterexample: AdjustBridgeDBValue leaves the
metrics-server-addr and rpc-server-addr keys out of the store, so it does
not write every key of the recognized-configuration table. -/
theorem c3_metrics_rpc_keys_not_written :
    AdjustBridgeDBValue sampleFlags emptyStore metricsServerFlag = none ∧
    AdjustBridgeDBValue sampleFlags emptyStore rpcServerFlag = none := ⟨rfl, rfl⟩

/-- Claim C3 amended: AdjustBridgeDBValue writes the keys tendermint node,
home, with-themis-config, metis-chain-id and logs-type verbatim and the two
bridge path keys with their derived values; the metrics-server-addr and
rpc-server-addr keys are not written to the store (initMetrics reads the
metrics address directly from the flag). -/
theorem c3_resolve_writes_seven_keys_values (f : Flags) :
    AdjustBridgeDBValue f emptyStore TendermintNodeFlag = some f.tendermintNode ∧
    AdjustBridgeDBValue f emptyStore HomeFlag = some f.home ∧
    AdjustBridgeDBValue f emptyStore WithThemisConfigFlag = some f.withThemisConfig ∧
    AdjustBridgeDBValue f emptyStore metisChainIDFlag = some f.metisChainID ∧
    AdjustBridgeDBValue f emptyStore logsTypeFlag = some f.logsType ∧
    AdjustBridgeDBValue f emptyStore bridgeDBFlag =
      some (if f.bridgeDB = "" then filepathJoin [f.home, "bridge", "storage"] else f.bridgeDB) ∧
    AdjustBridgeDBValue f emptyStore bridgeSqliteDBFlag =
      some (if f.bridgeSqliteDB = "" then filepathJoin [f.home, "bridge", "sqlite"] else f.bridgeSqliteDB) ∧
    AdjustBridgeDBValue f emptyStore metricsServerFlag = none ∧
    AdjustBridgeDBValue f emptyStore rpcServerFlag = none :=
  ⟨rfl, rfl, rfl, rfl, rfl, rfl, rfl, rfl, rfl⟩

/-- Claim C4: a non-empty override of either bridge path flag is stored
verbatim, whatever the home value and the other override are: each path
key only depends on its own override. -/
theorem c4_override_wins (f : Flags) :
    (f.bridgeDB ≠ "" →
      AdjustBridgeDBValue f emptyStore bridgeDBFlag = some f.bridgeDB) ∧
    (f.bridgeSqliteDB ≠ "" →
      AdjustBridgeDBValue f emptyStore bridgeSqliteDBFlag = some f.bridgeSqliteDB) := by
  constructor
  · intro hdb
    rw [adjust_apply,
      if_neg (by decide : ¬(bridgeDBFlag = logsTypeFlag)),
      if_neg (by decide : ¬(bridgeDBFlag = metisChainIDFlag)),
      if_neg (by decide : ¬(bridgeDBFlag = bridgeSqliteDBFlag)),
      if_pos (rfl : bridgeDBFlag = bridgeDBFlag), if_neg hdb]
  · intro hsql
    rw [adjust_apply,
      if_neg (by decide : ¬(bridgeSqliteDBFlag = logsTypeFlag)),
      if_neg (by decide : ¬(bridgeSqliteDBFlag = metisChainIDFlag)),
      if_pos (rfl : bridgeSqliteDBFlag = bridgeSqliteDBFlag), if_neg hsql]

/-- Concrete flag fixture with only the storage path overridden and the
sqlite override left empty (the mixed case of claim C4). -/
def mixedFlags : Flags :=
  { sampleFlags with bridgeDB := "/custom/db" }

/-- Claim C4 witness: with only bridge-db overridden to /custom/db (sqlite
override empty) the stored storage path is the override, and with both
overridden the stored sqlite path is /custom/sqlite. -/
theorem c4_override_wins_witness :
    AdjustBridgeDBValue mixedFlags emptyStore bridgeDBFlag = some "/custom/db" ∧
    AdjustBridgeDBValue overrideFlags emptyStore bridgeSqliteDBFlag = some "/custom/sqlite" :=
  ⟨(c4_override_wins mixedFlags).1 (by decide),
    (c4_override_wins overrideFlags).2 (by decide)⟩

/-- Claim C5: with empty overrides, the stored bridge paths are the home
value joined with bridge/storage and bridge/sqlite respectively, for every
home value. -/
theorem c5_empty_override_derived_paths (f : Flags) (hdb : f.bridgeDB = "")
    (hsql : f.bridgeSqliteDB = "") :
    AdjustBridgeDBValue f emptyStore bridgeDBFlag =
      some (filepathJoin [f.home, "bridge", "storage"]) ∧
    AdjustBridgeDBValue f emptyStore bridgeSqliteDBFlag =
      some (filepathJoin [f.home, "bridge", "sqlite"]) := by
  constructor
  · rw [adjust_apply,
      if_neg (by decide : ¬(bridgeDBFlag = logsTypeFlag)),
      if_neg (by decide : ¬(bridgeDBFlag = metisChainIDFlag)),
      if_neg (by decide : ¬(bridgeDBFlag = bridgeSqliteDBFlag)),
      if_pos (rfl : bridgeDBFlag = bridgeDBFlag), if_pos hdb]
  · rw [adjust_apply,
      if_neg (by decide : ¬(bridgeSqliteDBFlag = logsTypeFlag)),
      if_neg (by decide : ¬(bridgeSqliteDBFlag = metisChainIDFlag)),
      if_pos (rfl : bridgeSqliteDBFlag = bridgeSqliteDBFlag), if_pos hsql]

/-- Claim C5 witness: with home /data and empty overrides the stored paths
are /data/bridge/storage and /data/bridge/sqlite. -/
theorem c5_empty_override_derived_paths_witness :
    AdjustBridgeDBValue sampleFlags emptyStore bridgeDBFlag = some "/data/bridge/storage" ∧
    AdjustBridgeDBValue sampleFlags emptyStore bridgeSqliteDBFlag = some "/data/bridge/sqlite" := by
  have h := c5_empty_override_derived_paths sampleFlags rfl rfl
  exact ⟨h.1.trans (by decide), h.2.trans (by decide)⟩

/-- Claim C6: the pre-run hook is the identity on the bootstrap state for
the sentinel version command (no config resolution, no metrics start, so an
empty store stays empty), and for every other command identity it resolves
the config and then starts the metrics server. -/
theorem c6_sentinel_skips_init (f : Flags) (loadResult : Except GoError Unit)
    (s : BridgeState) (use : String) (huse : use ≠ versionCmdUse) :
    PersistentPreRun versionCmdUse f loadResult s = s ∧
    (∀ k, (PersistentPreRun versionCmdUse f loadResult
      { store := emptyStore, server := s.server }).store k = none) ∧
    PersistentPreRun use f loadResult s =
      initMetrics f (initTendermintViperConfig f loadResult s) := by
  refine ⟨?_, ?_, ?_⟩
  · simp [PersistentPreRun]
  · intro k
    simp [PersistentPreRun, emptyStore]
  · simp [PersistentPreRun, huse]

/-- Claim C6 witness: running the hooks concretely, the version command
leaves the fresh state untouched while the start command resolves and
starts metrics. -/
theorem c6_sentinel_skips_init_witness :
    PersistentPreRun versionCmdUse sampleFlags (Except.ok ()) sampleState = sampleState ∧
    PersistentPreRun "start" sampleFlags (Except.ok ()) sampleState =
      initMetrics sampleFlags (initTendermintViperConfig sampleFlags (Except.ok ()) sampleState) := by
  have h := c6_sentinel_skips_init sampleFlags (Except.ok ()) sampleState "start" (by decide)
  exact ⟨h.1, h.2.2⟩

/-- Claim C7: shutdown of a never-started (idle) metrics server returns the
unchanged server and no error, and after any shutdown call a second
shutdown also returns no error. -/
theorem c7_shutdown_idle_noop_idempotent (srv : MetricsServer) (t t2 : Nat)
    (d d2 : Option GoError) :
    (srv.state = ServerState.idle → srv.shutdown t d = (srv, none)) ∧
    ((srv.shutdown t d).1.shutdown t2 d2).2 = none := by
  obtain ⟨a, st⟩ := srv
  cases st <;> simp [MetricsServer.shutdown]

/-- Claim C7 witness: shutdown on the zero-valued metricsServer is a no-op
success and a repeated shutdown also succeeds. -/
theorem c7_shutdown_idle_noop_idempotent_witness :
    initialMetricsServer.shutdown 10 none = (initialMetricsServer, none) ∧
    ((initialMetricsServer.shutdown 10 none).1.shutdown 10 none).2 = none := by
  have h := c7_shutdown_idle_noop_idempotent initialMetricsServer 10 10 none none
  exact ⟨h.1 rfl, h.2⟩

/-- Claim C8: AdjustBridgeDBValue is idempotent: a second run with the same
flag values leaves the store exactly as the first run did. -/
theorem c8_resolve_idempotent (f : Flags) (s : ConfigStore) :
    AdjustBridgeDBValue f (AdjustBridgeDBValue f s) = AdjustBridgeDBValue f s := by
  funext k
  simp only [adjust_apply]
  by_cases h1 : k = logsTypeFlag
  · simp [h1]
  by_cases h2 : k = metisChainIDFlag
  · simp [h1, h2]
  by_cases h3 : k = bridgeSqliteDBFlag
  · simp [h1, h2, h3]
  by_cases h4 : k = bridgeDBFlag
  · simp [h1, h2, h3, h4]
  by_cases h5 : k = WithThemisConfigFlag
  · simp [h1, h2, h3, h4, h5]
  by_cases h6 : k = HomeFlag
  · simp [h1, h2, h3, h4, h5, h6]
  by_cases h7 : k = TendermintNodeFlag
  · simp [h1, h2, h3, h4, h5, h6, h7]
  simp [h1, h2, h3, h4, h5, h6, h7]

/-- Claim C9 counterexample: the caller-visible result of
initTendermintViperConfig is identical on a failed and on a successful load
of the persisted node configuration: the function has no error return, so a
locate/parse failure is not propagated to the caller of resolve. -/
theorem c9_load_error_invisible :
    initTendermintViperConfig sampleFlags
        (Except.error (GoError.other "failed to load node config")) sampleState =
      initTendermintViperConfig sampleFlags (Except.ok ()) sampleState := rfl

/-- Claim C9 amended: resolve triggers the load of the persisted node
configuration, but its outcome is discarded: the result is the store update
alone, independent of the load result, and carries no error value. -/
theorem c9_load_error_swallowed (f : Flags) (loadResult : Except GoError Unit)
    (s : BridgeState) :
    initTendermintViperConfig f loadResult s =
      { s with store := AdjustBridgeDBValue f s.store } := rfl

/-- Claim C10: every run of AdjustBridgeDBValue stores the
with-themis-config flag value, and starting from the empty store the
resulting store holds exactly the seven keys tendermint node, home,
with-themis-config, bridge-db, bridge-sqlite-db, metis-chain-id and
logs-type. -/
theorem c10_store_exactly_seven_keys (f : Flags) (k : String) :
    AdjustBridgeDBValue f emptyStore WithThemisConfigFlag = some f.withThemisConfig ∧
    ((AdjustBridgeDBValue f emptyStore k).isSome ↔
      (k = TendermintNodeFlag ∨ k = HomeFlag ∨ k = WithThemisConfigFlag ∨
        k = bridgeDBFlag ∨ k = bridgeSqliteDBFlag ∨ k = metisChainIDFlag ∨
        k = logsTypeFlag)) := by
  refine ⟨rfl, ?_⟩
  rw [adjust_apply]
  repeat' split <;> simp_all [emptyStore]

/-- Claim C10 witness: at the concrete flag fixture the with-themis-config
key is stored with its (empty) flag value, and an unrecognized key is
absent. -/
theorem c10_store_exactly_seven_keys_witness :
    AdjustBridgeDBValue sampleFlags emptyStore WithThemisConfigFlag = some "" ∧
    ¬(AdjustBridgeDBValue sampleFlags emptyStore "rpc-server-addr").isSome := by
  have h := c10_store_exactly_seven_keys sampleFlags "rpc-server-addr"
  refine ⟨h.1, fun hs => ?_⟩
  rcases (h.2.mp hs) with h1 | h1 | h1 | h1 | h1 | h1 | h1 <;> exact absurd h1 (by decide)
